import Mathlib

/-!
Verification development for the ChaosKey capture utilities
(`chaoskey_utils.py` and `chaoskey_fulltest.py`).

The shallow embedding below translates the device-session and capture-loop
core into Lean.  The USB transport is modelled as an oracle that answers each
bulk-transfer request (indexed by request number, given the requested chunk
size) with either a chunk of bytes or a timeout; bytes are modelled as `Nat`.
Python `int` sizes are modelled as `Int` (so non-positive requested sizes are
representable); exceptions are modelled with explicit result constructors or
`Except`.
-/

namespace ChaosKey

/-- Constant `BULK_TRANSFER_SIZE = 1024` from `chaoskey_utils.py`. -/
def BULK_TRANSFER_SIZE : Int := 1024

/-- Constant `USB_TIMEOUT_MS = 10_000` from `chaoskey_utils.py` (opaque to the logic;
kept for completeness). -/
def USB_TIMEOUT_MS : Nat := 10000

/-- One response of the USB transport to a single bulk-transfer request
(`self._device.read(endpoint, chunk_size, timeout=...)`): either a chunk of
bytes, or a `usb.core.USBTimeoutError`. -/
inductive USBResp where
  | chunk (data : List Nat)
  | timeout
deriving DecidableEq, Repr

/-- Result of one call of `ChaosKeyDevice.read`: either it returns bytes, or
it re-raises the `USBTimeoutError` (the `raise` at line 135). -/
inductive ReadResult where
  | ok (data : List Nat)
  | timeoutError
deriving DecidableEq, Repr

/-- Length of the returned byte sequence (0 in the error case). -/
def ReadResult.resultLen : ReadResult → Nat
  | .ok data => data.length
  | .timeoutError => 0

/-- Observable trace of one `ChaosKeyDevice.read` call:
* `result` — the returned bytes or the propagated timeout error;
* `requests` — how many transport requests (`self._device.read` calls) were
  issued;
* `states` — the contents of `buffer` at each evaluation of the loop
  condition `while remaining > 0` (so `states.head? = some []` at entry and
  the list records every intermediate accumulator state). -/
structure ReadTrace where
  result : ReadResult
  requests : Nat
  states : List (List Nat)
deriving DecidableEq, Repr

/-- The accumulator loop of `ChaosKeyDevice.read` (lines 121–137 of
`chaoskey_utils.py`):

    buffer = bytearray()
    remaining = size
    while remaining > 0:
        chunk_size = min(remaining, BULK_TRANSFER_SIZE)
        try:
            data = self._device.read(endpoint, chunk_size, timeout=USB_TIMEOUT_MS)
            if len(data) == 0:
                break
            buffer.extend(data)
            remaining -= len(data)
        except usb.core.USBTimeoutError:
            if buffer:
                break
            raise
    return bytes(buffer)

`script i n` is the transport's response to the `i`-th request of `n` bytes.
`remaining` is an `Int` exactly as Python's unbounded `int`; note that
Python's `remaining -= len(data)` can make `remaining` negative only if the
transport were to answer with more bytes than requested, in which case the
loop guard `remaining > 0` fails and the loop exits — `Int` subtraction
models this verbatim. -/
def readAux (script : Nat → Int → USBResp) (i : Nat) (buffer : List Nat)
    (remaining : Int) : ReadTrace :=
  if _h : remaining ≤ 0 then ⟨.ok buffer, 0, [buffer]⟩
  else
    match script i (min remaining BULK_TRANSFER_SIZE) with
    | .chunk data =>
      if hd : data = [] then ⟨.ok buffer, 1, [buffer]⟩
      else
        let rest := readAux script (i + 1) (buffer ++ data)
          (remaining - (data.length : Int))
        ⟨rest.result, rest.requests + 1, buffer :: rest.states⟩
    | .timeout =>
      if buffer = [] then ⟨.timeoutError, 1, [buffer]⟩
      else ⟨.ok buffer, 1, [buffer]⟩
termination_by remaining.toNat
decreasing_by
  have hlen : 0 < data.length := List.length_pos.mpr hd
  omega

/-- Model of `ChaosKeyDevice.read(endpoint, size)` on an open device (the
`self._device is None` guard at lines 118–119 raises before any transport
activity and is outside this model).  `transport e i n` answers the `i`-th
request of the call on endpoint `e` asking for `n` bytes. -/
def ChaosKeyDevice.read (transport : Nat → Nat → Int → USBResp)
    (endpoint : Nat) (size : Int) : ReadTrace :=
  readAux (transport endpoint) 0 [] size

/-- The pyusb contract of `usb.core.Device.read(endpoint, chunk_size, ...)`:
a bulk IN transfer never yields more bytes than the request asked for (the
loop only ever issues requests of positive size, so the contract is stated
for those). -/
def PyusbBounded (script : Nat → Int → USBResp) : Prop :=
  ∀ i n data, 0 < n → script i n = .chunk data → (data.length : Int) ≤ n

/- ### Device session open / close -/

/-- One candidate device as enumerated by
`usb.core.find(find_all=True, idVendor=CHAOSKEY_VID, idProduct=CHAOSKEY_PID)`
(so VID/PID already match).  `serialRead = some s` means
`usb.util.get_string(dev, dev.iSerialNumber)` returns `s`;
`serialRead = none` means it raises `usb.core.USBError` or `ValueError`. -/
structure Candidate where
  serialRead : Option String
deriving DecidableEq, Repr

/-- The serial-filter scan of `__enter__` (lines 55–62):

    for dev in devices:
        try:
            dev_serial = usb.util.get_string(dev, dev.iSerialNumber)
            if dev_serial == self._serial:
                self._device = dev
                break
        except (usb.core.USBError, ValueError):
            continue
-/
def findBySerial (s : String) : List Candidate → Option Candidate
  | [] => none
  | c :: rest =>
    match c.serialRead with
    | none => findBySerial s rest
    | some t => if t = s then some c else findBySerial s rest

/-- Device selection in `__enter__` (lines 48–64).  Python's
`if self._serial:` is truthiness: both `None` and the empty string take the
unfiltered branch `usb.core.find(idVendor=..., idProduct=...)`, which yields
the first matching device. -/
def selectDevice (serial : Option String) (cands : List Candidate) :
    Option Candidate :=
  match serial with
  | none => cands.head?
  | some s => if s = "" then cands.head? else findBySerial s cands

/-- The session fields mutated by `__enter__` / read by `__exit__`:
`self._device` and `self._kernel_was_active`. -/
structure SessionState where
  device : Option Candidate
  kernelWasActive : Bool
deriving DecidableEq, Repr

/-- Environment of one `__enter__` attempt: the enumerated candidates, the
serial filter, whether the kernel driver holds the interface
(`is_kernel_driver_active`), whether the detach block raises
(`usb.core.USBError` or `NotImplementedError` — platform without detach
support, or a failing detach), and whether `usb.util.claim_interface`
raises `usb.core.USBError` (interface busy / access denied). -/
structure EnterEnv where
  serial : Option String
  candidates : List Candidate
  kernelActive : Bool
  kernelOpFails : Bool
  claimFails : Bool
deriving DecidableEq, Repr

/-- Result of `__enter__`: success, the `RuntimeError("No ChaosKey device
found")` at line 67, or the `usb.core.USBError` propagating out of
`usb.util.claim_interface` at line 78 (the session fields at raise time are
recorded). -/
inductive EnterResult where
  | opened (s : SessionState)
  | deviceNotFound
  | claimError (s : SessionState)
deriving DecidableEq, Repr

/-- Observable trace of one `__enter__` attempt. `kernelDetachedNow` is the
physical state of the kernel driver after the attempt: detached exactly when
the detach block ran to completion (driver was active and nothing raised). -/
structure EnterOutcome where
  result : EnterResult
  claimAttempted : Bool
  kernelDetachedNow : Bool
deriving DecidableEq, Repr

/-- Model of `__enter__` (lines 45–79).  The detach block (lines 70–75) sets
`self._kernel_was_active = True` only after a successful detach; any
exception there is swallowed. `usb.util.claim_interface` (line 78) is not
wrapped in any handler, so its failure propagates with the session fields as
already mutated. -/
def enter (env : EnterEnv) : EnterOutcome :=
  match selectDevice env.serial env.candidates with
  | none => ⟨.deviceNotFound, false, false⟩
  | some c =>
    let kwa := env.kernelActive && !env.kernelOpFails
    if env.claimFails then ⟨.claimError ⟨some c, kwa⟩, true, kwa⟩
    else ⟨.opened ⟨some c, kwa⟩, true, kwa⟩

/-- Whether each teardown step of `__exit__` raises `usb.core.USBError`:
`usb.util.release_interface`, `self._device.attach_kernel_driver`,
`usb.util.dispose_resources`. -/
structure CleanupEnv where
  releaseFails : Bool
  attachFails : Bool
  disposeFails : Bool
deriving DecidableEq, Repr

/-- Which teardown steps of `__exit__` were attempted (reached and invoked,
whether or not they then raised). -/
structure ExitTrace where
  releaseAttempted : Bool
  attachAttempted : Bool
  disposeAttempted : Bool
deriving DecidableEq, Repr

/-- A fallible cleanup step: raises `usb.core.USBError` (`Except.error`) or
completes. -/
def step (fails : Bool) : Except Unit Unit :=
  if fails then .error () else .ok ()

/-- Handler `try: ... except usb.core.USBError: pass` around a single step. -/
def catchUSB (x : Except Unit Unit) : Except Unit Unit :=
  match x with
  | .error _ => .ok ()
  | .ok _ => .ok ()

/-- Model of `__exit__` (lines 81–102).  Each of the three teardown steps is wrapped
in its own catch-and-ignore handler; the attach step runs only when
`self._kernel_was_active`; nothing runs when `self._device is None`; the
session fields are not mutated; the method returns `False` (exceptions from
the `with` body are not suppressed — not modelled further).  An uncaught
exception would short-circuit the `Except` chain to `.error`. -/
def exitFn (s : SessionState) (c : CleanupEnv) :
    Except Unit (ExitTrace × SessionState) :=
  match s.device with
  | none => .ok (⟨false, false, false⟩, s)
  | some _ =>
    (catchUSB (step c.releaseFails)).bind fun _ =>
      (if s.kernelWasActive then catchUSB (step c.attachFails)
       else .ok ()).bind fun _ =>
        (catchUSB (step c.disposeFails)).bind fun _ =>
          .ok (⟨true, s.kernelWasActive, true⟩, s)

/-- Errors surfaced by a failed `with ChaosKeyDevice(...) as device:` entry. -/
inductive OpenError where
  | deviceNotFound
  | deviceBusy
deriving DecidableEq, Repr

/-- The `with ChaosKeyDevice(serial=...) as device: ...` protocol
(`chaoskey_fulltest.py` line 223): Python invokes `__exit__` only when
`__enter__` returned successfully; if `__enter__` raises, the exception
propagates and no teardown runs.  Returns the surfaced error (if any) and
whether the kernel driver is left detached once the statement has finished. -/
def withSession (env : EnterEnv) (cenv : CleanupEnv) : Option OpenError × Bool :=
  match enter env with
  | ⟨.deviceNotFound, _, det⟩ => (some .deviceNotFound, det)
  | ⟨.claimError _, _, det⟩ => (some .deviceBusy, det)
  | ⟨.opened s, _, det⟩ =>
    match exitFn s cenv with
    | .ok _ => (none, if s.kernelWasActive && !cenv.attachFails then false else det)
    | .error _ => (none, det)

end ChaosKey

namespace ChaosKeyFulltest

open ChaosKey

/-- A progress message printed by `capture_data` before breaking out of the
loop: `"Read failed at block {i+1}"` or `"No data received at block {i+1}"`. -/
inductive CMsg where
  | readFailed (block : Nat)
  | noData (block : Nat)
deriving DecidableEq, Repr

/-- Observable outcome of `capture_data`:
* `total` — the returned `total_bytes`;
* `sink` — the bytes written to `output_file`, in order;
* `msgs` — the break messages printed (at most one);
* `completed` — how many blocks were fully read, counted, and written. -/
structure CaptureResult where
  total : Nat
  sink : List Nat
  msgs : List CMsg
  completed : Nat
deriving DecidableEq, Repr

/-- The rate computation of `capture_data` (lines 138–142):

    elapsed = after - before
    if elapsed > 0:
        rate = float(len(data)) / (elapsed * 1_000_000.0) * 8
    else:
        rate = 0.0

Elapsed time is modelled as a rational; the division is modelled as the
fallible Python division, which raises `ZeroDivisionError` (`Except.error`)
when the divisor is zero. -/
def computeRate (len : Nat) (elapsed : ℚ) : Except Unit ℚ :=
  if 0 < elapsed then
    if elapsed * 1000000 = 0 then .error ()
    else .ok ((len : ℚ) / (elapsed * 1000000) * 8)
  else .ok 0

/-- The loop body of `capture_data` (lines 119–153 of
`chaoskey_fulltest.py`), iterating `for i in range(num_loops)` with `fuel`
iterations left and `i` the current index:

    try:
        data = device.read(endpoint, block_size)
    except usb.core.USBError as e:
        print(f"Read failed at block {i + 1}: {e}")
        break
    if len(data) == 0:
        print(f"No data received at block {i + 1}")
        break
    total_bytes += len(data)
    output_file.write(data)
    ...rate...

`reads i` is the outcome of the `i`-th `device.read` call (the propagated
`USBTimeoutError` is a `usb.core.USBError`, so it lands in the `except`
arm).  A `ZeroDivisionError` from the rate computation would propagate out
of `capture_data`; it is threaded through `Except`. -/
def captureAux (reads : Nat → ReadResult) (elapsed : Nat → ℚ) :
    Nat → Nat → Nat → List Nat → Except Unit CaptureResult
  | _, 0, total, sink => .ok ⟨total, sink, [], 0⟩
  | i, fuel + 1, total, sink =>
    match reads i with
    | .timeoutError => .ok ⟨total, sink, [.readFailed (i + 1)], 0⟩
    | .ok data =>
      if data = [] then .ok ⟨total, sink, [.noData (i + 1)], 0⟩
      else
        match computeRate data.length (elapsed i) with
        | .error e => .error e
        | .ok _ =>
          match captureAux reads elapsed (i + 1) fuel (total + data.length)
              (sink ++ data) with
          | .error e => .error e
          | .ok r => .ok ⟨r.total, r.sink, r.msgs, r.completed + 1⟩

/-- Model of `capture_data(device, output_file, endpoint, num_loops, block_size)`.
The per-block `device.read(endpoint, block_size)` outcomes are abstracted by
`reads`; `block_size` itself only determines what the device is asked for,
which is already folded into `reads`. -/
def capture_data (reads : Nat → ReadResult) (elapsed : Nat → ℚ)
    (num_loops : Nat) : Except Unit CaptureResult :=
  captureAux reads elapsed 0 num_loops 0 []

end ChaosKeyFulltest

/-! ## Theorems -/

namespace ChaosKey

/-- Unfolding `readAux` when the loop guard `remaining > 0` fails. -/
theorem readAux_stop (script : Nat → Int → USBResp) (i : Nat)
    (buffer : List Nat) (remaining : Int) (h : remaining ≤ 0) :
    readAux script i buffer remaining = ⟨.ok buffer, 0, [buffer]⟩ := by
  rw [readAux]; exact dif_pos h

/-- Unfolding `readAux` on a zero-length chunk response. -/
theorem readAux_zero_chunk (script : Nat → Int → USBResp) (i : Nat)
    (buffer : List Nat) (remaining : Int) (h : ¬remaining ≤ 0)
    (hs : script i (min remaining BULK_TRANSFER_SIZE) = .chunk []) :
    readAux script i buffer remaining = ⟨.ok buffer, 1, [buffer]⟩ := by
  rw [readAux, dif_neg h, hs]
  rfl

/-- Unfolding `readAux` on a non-empty chunk response. -/
theorem readAux_chunk (script : Nat → Int → USBResp) (i : Nat)
    (buffer : List Nat) (remaining : Int) (h : ¬remaining ≤ 0)
    (data : List Nat)
    (hs : script i (min remaining BULK_TRANSFER_SIZE) = .chunk data)
    (hd : data ≠ []) :
    readAux script i buffer remaining =
      ⟨(readAux script (i + 1) (buffer ++ data)
          (remaining - (data.length : Int))).result,
       (readAux script (i + 1) (buffer ++ data)
          (remaining - (data.length : Int))).requests + 1,
       buffer :: (readAux script (i + 1) (buffer ++ data)
          (remaining - (data.length : Int))).states⟩ := by
  rw [readAux, dif_neg h, hs]
  exact dif_neg hd

/-- Unfolding `readAux` on a timeout response. -/
theorem readAux_timeout (script : Nat → Int → USBResp) (i : Nat)
    (buffer : List Nat) (remaining : Int) (h : ¬remaining ≤ 0)
    (hs : script i (min remaining BULK_TRANSFER_SIZE) = .timeout) :
    readAux script i buffer remaining =
      if buffer = [] then ⟨.timeoutError, 1, [buffer]⟩
      else ⟨.ok buffer, 1, [buffer]⟩ := by
  rw [readAux, dif_neg h, hs]

/-- Accumulator invariant of the read loop: under the pyusb transport
contract, the returned byte count and every intermediate accumulator state
stay below `buffer.length + remaining.toNat`. -/
theorem readAux_length_invariant (script : Nat → Int → USBResp)
    (hb : PyusbBounded script) :
    ∀ (fuel : Nat) (remaining : Int), remaining.toNat ≤ fuel →
      ∀ (i : Nat) (buffer : List Nat),
      (readAux script i buffer remaining).result.resultLen ≤
          buffer.length + remaining.toNat ∧
      ∀ b ∈ (readAux script i buffer remaining).states,
          b.length ≤ buffer.length + remaining.toNat := by
  intro fuel
  induction fuel with
  | zero =>
    intro remaining hrem i buffer
    have h0 : remaining ≤ 0 := by omega
    rw [readAux_stop script i buffer remaining h0]
    simp [ReadResult.resultLen]
  | succ n ih =>
    intro remaining hrem i buffer
    by_cases h0 : remaining ≤ 0
    · rw [readAux_stop script i buffer remaining h0]
      simp [ReadResult.resultLen]
    · rcases hs : script i (min remaining BULK_TRANSFER_SIZE) with data | _
      · by_cases hd : data = []
        · subst hd
          rw [readAux_zero_chunk script i buffer remaining h0 hs]
          simp [ReadResult.resultLen]
        · have hlen : 0 < data.length := List.length_pos.mpr hd
          have hpos : 0 < min remaining BULK_TRANSFER_SIZE := by
            simp only [BULK_TRANSFER_SIZE]; omega
          have hle : (data.length : Int) ≤ min remaining BULK_TRANSFER_SIZE :=
            hb i _ data hpos hs
          have hle2 : (data.length : Int) ≤ remaining :=
            le_trans hle (min_le_left _ _)
          obtain ⟨ih1, ih2⟩ := ih (remaining - (data.length : Int)) (by omega)
            (i + 1) (buffer ++ data)
          rw [readAux_chunk script i buffer remaining h0 data hs hd]
          refine ⟨?_, ?_⟩
          · calc (readAux script (i + 1) (buffer ++ data)
                    (remaining - (data.length : Int))).result.resultLen
                ≤ (buffer ++ data).length +
                    (remaining - (data.length : Int)).toNat := ih1
              _ ≤ buffer.length + remaining.toNat := by
                  simp only [List.length_append]; omega
          · intro b hbmem
            simp only [List.mem_cons] at hbmem
            rcases hbmem with rfl | hbmem
            · omega
            · calc b.length
                  ≤ (buffer ++ data).length +
                      (remaining - (data.length : Int)).toNat := ih2 b hbmem
                _ ≤ buffer.length + remaining.toNat := by
                    simp only [List.length_append]; omega
      · rw [readAux_timeout script i buffer remaining h0 hs]
        by_cases hbuf : buffer = []
        · simp [hbuf, ReadResult.resultLen]
        · simp [hbuf, ReadResult.resultLen]

/-- Claim C1: for every endpoint, every requested size and every transport
response sequence respecting the pyusb bulk-read contract (a request for `n`
bytes yields at most `n` bytes), `ChaosKeyDevice.read` returns at most
`size` bytes, and the accumulator `buffer` never exceeds `size` bytes at any
evaluation of the loop condition. -/
theorem chunked_read_never_exceeds_size (transport : Nat → Nat → Int → USBResp)
    (endpoint : Nat) (size : Int)
    (hb : PyusbBounded (transport endpoint)) :
    (ChaosKeyDevice.read transport endpoint size).result.resultLen ≤ size.toNat ∧
    ∀ b ∈ (ChaosKeyDevice.read transport endpoint size).states,
      b.length ≤ size.toNat := by
  have h := readAux_length_invariant (transport endpoint) hb size.toNat size
    le_rfl 0 []
  simpa [ChaosKeyDevice.read] using h

/-- Witness for C1 at a concrete transport (always answers with one byte
when at least one byte is requested), endpoint `0x85` and size 2048. -/
theorem chunked_read_never_exceeds_size_witness :
    (ChaosKeyDevice.read
        (fun _ _ n => if 1 ≤ n then .chunk [0] else .timeout) 133 2048
      ).result.resultLen ≤ (2048 : Int).toNat ∧
    ∀ b ∈ (ChaosKeyDevice.read
        (fun _ _ n => if 1 ≤ n then .chunk [0] else .timeout) 133 2048).states,
      b.length ≤ (2048 : Int).toNat := by
  have hb : PyusbBounded
      ((fun (_ _ : Nat) (n : Int) =>
          if 1 ≤ n then USBResp.chunk [0] else USBResp.timeout) 133) := by
    intro i n data hn h
    by_cases h1 : (1 : Int) ≤ n
    · simp only [h1, if_true, USBResp.chunk.injEq] at h
      subst h
      simpa using h1
    · simp [h1] at h
  exact chunked_read_never_exceeds_size _ 133 2048 hb

/-- Claim C2: a per-chunk timeout with an empty accumulator makes the whole
call fail with the propagated timeout error, while a per-chunk timeout after
at least one byte has been accumulated makes the call return the accumulated
bytes as a short result. -/
theorem read_timeout_cases (transport : Nat → Nat → Int → USBResp)
    (endpoint : Nat) (size : Int) (hs : 0 < size) :
    (transport endpoint 0 (min size BULK_TRANSFER_SIZE) = .timeout →
      ChaosKeyDevice.read transport endpoint size = ⟨.timeoutError, 1, [[]]⟩) ∧
    (∀ (i : Nat) (buffer : List Nat) (remaining : Int), buffer ≠ [] →
      0 < remaining →
      transport endpoint i (min remaining BULK_TRANSFER_SIZE) = .timeout →
      readAux (transport endpoint) i buffer remaining = ⟨.ok buffer, 1, [buffer]⟩) := by
  constructor
  · intro ht
    rw [ChaosKeyDevice.read, readAux]
    rw [dif_neg (by omega), ht]
    simp
  · intro i buffer remaining hbuf hrem ht
    rw [readAux]
    rw [dif_neg (by omega), ht]
    simp [hbuf]

/-- Witness for C2: a transport that always times out, size 5, and the
loop state with one byte already accumulated. -/
theorem read_timeout_cases_witness :
    ChaosKeyDevice.read (fun _ _ _ => .timeout) 133 5 = ⟨.timeoutError, 1, [[]]⟩ ∧
    readAux ((fun (_ _ : Nat) (_ : Int) => USBResp.timeout) 133) 1 [42] 4 =
      ⟨.ok [42], 1, [[42]]⟩ := by
  refine ⟨(read_timeout_cases (fun _ _ _ => .timeout) 133 5 (by norm_num)).1 rfl, ?_⟩
  exact (read_timeout_cases (fun _ _ _ => .timeout) 133 5 (by norm_num)).2
    1 [42] 4 (by simp) (by norm_num) rfl

/-- Claim C3: a zero-length chunk response stops the read loop at once: the
request that returned it is the last one (`requests = 1` from that state),
the call returns exactly the previously accumulated bytes, and the outcome
is a normal `ok` return, not an error. -/
theorem read_zero_chunk_stops (transport : Nat → Nat → Int → USBResp)
    (endpoint i : Nat) (buffer : List Nat) (remaining : Int)
    (hrem : 0 < remaining)
    (hz : transport endpoint i (min remaining BULK_TRANSFER_SIZE) = .chunk []) :
    readAux (transport endpoint) i buffer remaining = ⟨.ok buffer, 1, [buffer]⟩ := by
  rw [readAux]
  rw [dif_neg (by omega), hz]
  simp

/-- Witness for C3: a transport answering the empty chunk immediately, with
an empty accumulator, and once more mid-loop with bytes accumulated. -/
theorem read_zero_chunk_stops_witness :
    readAux ((fun (_ _ : Nat) (_ : Int) => USBResp.chunk []) 134) 0 [] 9 =
      ⟨.ok [], 1, [[]]⟩ ∧
    readAux ((fun (_ _ : Nat) (_ : Int) => USBResp.chunk []) 134) 2 [1, 2] 7 =
      ⟨.ok [1, 2], 1, [[1, 2]]⟩ := by
  exact ⟨read_zero_chunk_stops (fun _ _ _ => .chunk []) 134 0 [] 9 (by norm_num) rfl,
    read_zero_chunk_stops (fun _ _ _ => .chunk []) 134 2 [1, 2] 7 (by norm_num) rfl⟩

/-- Claim C10: a chunked read with a non-positive requested size returns the
empty byte sequence at once, issuing no transport request at all
(`requests = 0`), for every transport and endpoint. -/
theorem read_nonpositive_size (transport : Nat → Nat → Int → USBResp)
    (endpoint : Nat) (size : Int) (h : size ≤ 0) :
    ChaosKeyDevice.read transport endpoint size = ⟨.ok [], 0, [[]]⟩ := by
  rw [ChaosKeyDevice.read, readAux]
  rw [dif_pos h]

/-- Witness for C10 at sizes `0` and `-3` with a transport that would hand
out data if it were ever asked. -/
theorem read_nonpositive_size_witness :
    ChaosKeyDevice.read (fun _ _ _ => .chunk [9]) 133 0 = ⟨.ok [], 0, [[]]⟩ ∧
    ChaosKeyDevice.read (fun _ _ _ => .chunk [9]) 134 (-3) = ⟨.ok [], 0, [[]]⟩ :=
  ⟨read_nonpositive_size (fun _ _ _ => .chunk [9]) 133 0 (by norm_num),
   read_nonpositive_size (fun _ _ _ => .chunk [9]) 134 (-3) (by norm_num)⟩

end ChaosKey

namespace ChaosKey

/-- Handler `try: ... except usb.core.USBError: pass` around one fallible step
always completes. -/
theorem catchUSB_step (b : Bool) : catchUSB (step b) = .ok () := by
  cases b <;> rfl

/-- Claim C4: session close never raises and is idempotent.  For every session
state (device never opened included) and every combination of failing
cleanup steps, `__exit__` completes normally (`Except.ok`), leaves the
session fields unchanged (hence a second close behaves identically), its
outcome does not depend on which cleanup steps fail (in particular a failing
interface release does not prevent the reattach and dispose steps), and with
an open device it attempts release and dispose always, and reattach exactly
when the kernel driver had been detached. -/
theorem session_close_never_raises (s : SessionState) (c : CleanupEnv) :
    exitFn s c =
      .ok (⟨s.device.isSome, s.device.isSome && s.kernelWasActive,
            s.device.isSome⟩, s) ∧
    (∀ c' : CleanupEnv, exitFn s c = exitFn s c') ∧
    (∀ (t : ExitTrace) (s' : SessionState),
      exitFn s c = .ok (t, s') → exitFn s' c = .ok (t, s')) := by
  have hchar : ∀ c' : CleanupEnv, exitFn s c' =
      .ok (⟨s.device.isSome, s.device.isSome && s.kernelWasActive,
            s.device.isSome⟩, s) := by
    intro c'
    cases hd : s.device with
    | none => simp [exitFn, hd]
    | some dev =>
      cases hk : s.kernelWasActive <;>
        simp [exitFn, hd, hk, catchUSB_step, Except.bind]
  refine ⟨hchar c, fun c' => (hchar c).trans (hchar c').symm, ?_⟩
  intro t s' h
  rw [hchar c] at h
  injection h with h'
  injection h' with ht hs
  subst hs
  rw [hchar c, ht]

/-- Witness for C4: a fully failing cleanup environment on an open session
with a detached kernel driver, and on a session whose open never succeeded. -/
theorem session_close_never_raises_witness :
    exitFn ⟨some ⟨some "CK1"⟩, true⟩ ⟨true, true, true⟩ =
      .ok (⟨true, true, true⟩, ⟨some ⟨some "CK1"⟩, true⟩) ∧
    exitFn ⟨none, false⟩ ⟨true, true, true⟩ =
      .ok (⟨false, false, false⟩, ⟨none, false⟩) ∧
    exitFn ⟨none, false⟩ ⟨true, true, true⟩ =
      .ok (⟨false, false, false⟩, ⟨none, false⟩) :=
  ⟨(session_close_never_raises ⟨some ⟨some "CK1"⟩, true⟩ ⟨true, true, true⟩).1,
   (session_close_never_raises ⟨none, false⟩ ⟨true, true, true⟩).1,
   (session_close_never_raises ⟨none, false⟩ ⟨true, true, true⟩).2.2
     ⟨false, false, false⟩ ⟨none, false⟩
     (session_close_never_raises ⟨none, false⟩ ⟨true, true, true⟩).1⟩

/-- Failed-open scenario for C5: one candidate, no serial filter, kernel
driver active, detach succeeds, interface claim fails (another holder). -/
def busyEnv : EnterEnv := ⟨none, [⟨some "CK1"⟩], true, false, true⟩

/-- Claim C5, counterexample: in `busyEnv` the open fails with the busy error,
but the kernel-driver detachment performed earlier in the same attempt is
*not* reverted: `with` never invokes `__exit__` when `__enter__` raises, so
after the failed open the kernel driver is still detached (`true`), whereas
the claim requires it reattached (`false`). -/
theorem open_busy_counterexample :
    withSession busyEnv ⟨false, false, false⟩ = (some .deviceBusy, true) ∧
    ¬ (withSession busyEnv ⟨false, false, false⟩).2 = false := by
  decide

/-- Claim C5, amended: if a candidate was selected and the interface claim
fails, open fails with the propagated busy error, and no cleanup of the
failed open runs: the kernel driver is left exactly as the detach step left
it (detached whenever the detachment had been performed), for every cleanup
environment. -/
theorem open_busy_leaves_detached (env : EnterEnv) (c : Candidate)
    (hsel : selectDevice env.serial env.candidates = some c)
    (hclaim : env.claimFails = true) :
    (enter env).result =
      .claimError ⟨some c, env.kernelActive && !env.kernelOpFails⟩ ∧
    ∀ cenv : CleanupEnv, withSession env cenv =
      (some .deviceBusy, env.kernelActive && !env.kernelOpFails) := by
  constructor
  · simp [enter, hsel, hclaim]
  · intro cenv
    simp [withSession, enter, hsel, hclaim]

/-- Witness for C5 (amended) at the concrete `busyEnv`. -/
theorem open_busy_leaves_detached_witness :
    (enter busyEnv).result = .claimError ⟨some ⟨some "CK1"⟩, true⟩ ∧
    withSession busyEnv ⟨true, false, true⟩ = (some .deviceBusy, true) := by
  have h := open_busy_leaves_detached busyEnv ⟨some "CK1"⟩ (by decide) rfl
  exact ⟨h.1, h.2 ⟨true, false, true⟩⟩

/-- Follows the spec's words for device selection: "if a serial filter is
supplied, read each candidate's serial descriptor and select the first exact
match, skipping candidates whose descriptor cannot be read; if no serial
filter is supplied, select the first matching device." -/
def selectDeviceSpec (serial : Option String) (cands : List Candidate) :
    Option Candidate :=
  match serial with
  | none => cands.head?
  | some s => cands.find? (fun c => c.serialRead == some s)

/-- Claim C6, counterexample: with the supplied serial filter `""` and a
single candidate whose serial reads `"CK1"`, the claim requires the
candidate to be treated as a non-match (device-not-found, no claim
attempt); the code's truthiness test `if self._serial:` treats the empty
string as no filter, selects the candidate and attempts the claim. -/
theorem serial_filter_counterexample :
    enter ⟨some "", [⟨some "CK1"⟩], false, false, false⟩ =
      ⟨.opened ⟨some ⟨some "CK1"⟩, false⟩, true, false⟩ ∧
    selectDeviceSpec (some "") [⟨some "CK1"⟩] = none := by
  decide

/-- The serial-filter scan agrees with a first-match search that skips
unreadable serial descriptors. -/
theorem findBySerial_eq_find (s : String) (cands : List Candidate) :
    findBySerial s cands = cands.find? (fun c => c.serialRead == some s) := by
  induction cands with
  | nil => rfl
  | cons c rest ih =>
    cases hc : c.serialRead with
    | none => simp [findBySerial, List.find?, hc, ih]
    | some t =>
      by_cases ht : t = s
      · simp [findBySerial, List.find?, hc, ht]
      · have hbeq : (t == s) = false := beq_eq_false_iff_ne.mpr ht
        simp [findBySerial, List.find?, hc, ht, hbeq, ih]

/-- Claim C6, amended: device selection with a *non-empty* serial filter picks
the first candidate whose serial descriptor reads successfully and equals
the filter exactly, skipping candidates whose descriptor read fails; with no
filter it picks the first candidate; an empty-string filter is treated by
the code as no filter (first candidate); and when no candidate is selected,
open fails with device-not-found without attempting an interface claim. -/
theorem select_device_characterization :
    (∀ (s : String) (cands : List Candidate), s ≠ "" →
      selectDevice (some s) cands = selectDeviceSpec (some s) cands) ∧
    (∀ cands : List Candidate,
      selectDevice none cands = selectDeviceSpec none cands) ∧
    (∀ cands : List Candidate, selectDevice (some "") cands = cands.head?) ∧
    (∀ env : EnterEnv, selectDevice env.serial env.candidates = none →
      enter env = ⟨.deviceNotFound, false, false⟩) := by
  refine ⟨?_, ?_, ?_, ?_⟩
  · intro s cands hs
    simp [selectDevice, selectDeviceSpec, hs, findBySerial_eq_find]
  · intro cands
    rfl
  · intro cands
    rfl
  · intro env hnone
    simp [enter, hnone]

/-- Witness for C6 (amended): a filter matching the third of three
candidates (the first unreadable, the second a different serial), and a
filter matching no candidate. -/
theorem select_device_characterization_witness :
    selectDevice (some "CK1") [⟨none⟩, ⟨some "CK0"⟩, ⟨some "CK1"⟩] =
      selectDeviceSpec (some "CK1") [⟨none⟩, ⟨some "CK0"⟩, ⟨some "CK1"⟩] ∧
    enter ⟨some "ZZ", [⟨some "CK1"⟩], true, false, false⟩ =
      ⟨.deviceNotFound, false, false⟩ :=
  ⟨select_device_characterization.1 "CK1" _ (by decide),
   select_device_characterization.2.2.2
     ⟨some "ZZ", [⟨some "CK1"⟩], true, false, false⟩ (by decide)⟩

end ChaosKey

namespace ChaosKeyFulltest

open ChaosKey

/-- One-step unfolding of the capture loop body. -/
theorem captureAux_step (reads : Nat → ReadResult) (elapsed : Nat → ℚ)
    (i fuel total : Nat) (sink : List Nat) :
    captureAux reads elapsed i (fuel + 1) total sink =
      match reads i with
      | .timeoutError => .ok ⟨total, sink, [.readFailed (i + 1)], 0⟩
      | .ok data =>
        if data = [] then .ok ⟨total, sink, [.noData (i + 1)], 0⟩
        else
          match computeRate data.length (elapsed i) with
          | .error e => .error e
          | .ok _ =>
            match captureAux reads elapsed (i + 1) fuel (total + data.length)
                (sink ++ data) with
            | .error e => .error e
            | .ok r => .ok ⟨r.total, r.sink, r.msgs, r.completed + 1⟩ := rfl

/-- One-step unfolding: read failed (`usb.core.USBError` caught), break. -/
theorem captureAux_timeout_eq (reads : Nat → ReadResult) (elapsed : Nat → ℚ)
    (i fuel total : Nat) (sink : List Nat) (hr : reads i = .timeoutError) :
    captureAux reads elapsed i (fuel + 1) total sink =
      .ok ⟨total, sink, [.readFailed (i + 1)], 0⟩ := by
  simp only [captureAux_step, hr]

/-- One-step unfolding: zero bytes received, break. -/
theorem captureAux_noData_eq (reads : Nat → ReadResult) (elapsed : Nat → ℚ)
    (i fuel total : Nat) (sink : List Nat) (hr : reads i = .ok []) :
    captureAux reads elapsed i (fuel + 1) total sink =
      .ok ⟨total, sink, [.noData (i + 1)], 0⟩ := by
  simp only [captureAux_step, hr, if_pos]

/-- One-step unfolding: a non-empty block is accepted and the loop
continues. -/
theorem captureAux_cons_eq (reads : Nat → ReadResult) (elapsed : Nat → ℚ)
    (i fuel total : Nat) (sink data : List Nat) (q : ℚ)
    (hr : reads i = .ok data) (hne : data ≠ [])
    (hcr : computeRate data.length (elapsed i) = .ok q) :
    captureAux reads elapsed i (fuel + 1) total sink =
      match captureAux reads elapsed (i + 1) fuel (total + data.length)
          (sink ++ data) with
      | .error e => .error e
      | .ok r => .ok ⟨r.total, r.sink, r.msgs, r.completed + 1⟩ := by
  simp only [captureAux_step, hr, if_neg hne, hcr]

/-- The guarded rate computation always succeeds: a strictly positive
rational times `1000000` is nonzero, and otherwise no division happens. -/
theorem computeRate_ok (len : Nat) (elapsed : ℚ) :
    ∃ r, computeRate len elapsed = .ok r := by
  unfold computeRate
  by_cases h : 0 < elapsed
  · have hne : elapsed * 1000000 ≠ 0 :=
      (mul_pos h (by norm_num : (0 : ℚ) < 1000000)).ne'
    exact ⟨_, by rw [if_pos h, if_neg hne]⟩
  · exact ⟨0, by rw [if_neg h]⟩

/-- The capture loop never propagates an exception from the rate
computation: it always returns a result. -/
theorem captureAux_isOk (reads : Nat → ReadResult) (elapsed : Nat → ℚ) :
    ∀ (fuel i total : Nat) (sink : List Nat),
      ∃ r, captureAux reads elapsed i fuel total sink = .ok r := by
  intro fuel
  induction fuel with
  | zero => intro i total sink; exact ⟨_, rfl⟩
  | succ n ih =>
    intro i total sink
    cases hr : reads i with
    | timeoutError => exact ⟨_, captureAux_timeout_eq reads elapsed i n total sink hr⟩
    | ok data =>
      by_cases hd : data = []
      · subst hd
        exact ⟨_, captureAux_noData_eq reads elapsed i n total sink hr⟩
      · obtain ⟨r1, hr1⟩ := computeRate_ok data.length (elapsed i)
        obtain ⟨r2, hr2⟩ := ih (i + 1) (total + data.length) (sink ++ data)
        exact ⟨⟨r2.total, r2.sink, r2.msgs, r2.completed + 1⟩, by
          rw [captureAux_cons_eq reads elapsed i n total sink data r1 hr hd hr1,
            hr2]⟩

/-- Running the capture loop over a list of non-empty, error-free block
responses: every block is consumed, appended to the sink in order, and
counted by its actual length. -/
theorem captureAux_all_ok (reads : Nat → ReadResult) (elapsed : Nat → ℚ) :
    ∀ (blocks : List (List Nat)) (i total : Nat) (sink : List Nat),
      (∀ (j : Nat) (hj : j < blocks.length),
        reads (i + j) = .ok (blocks.get ⟨j, hj⟩) ∧ blocks.get ⟨j, hj⟩ ≠ []) →
      captureAux reads elapsed i blocks.length total sink =
        .ok ⟨total + (blocks.map List.length).sum, sink ++ blocks.flatten,
             [], blocks.length⟩ := by
  intro blocks
  induction blocks with
  | nil => intro i total sink _; simp [captureAux]
  | cons blk rest ih =>
    intro i total sink h
    obtain ⟨hr, hne⟩ := h 0 (by simp)
    simp only [List.get] at hr hne
    rw [Nat.add_zero] at hr
    simp only [List.length_cons]
    obtain ⟨r1, hr1⟩ := computeRate_ok blk.length (elapsed i)
    have hshift : ∀ (j : Nat) (hj : j < rest.length),
        reads (i + 1 + j) = .ok (rest.get ⟨j, hj⟩) ∧ rest.get ⟨j, hj⟩ ≠ [] := by
      intro j hj
      have hj2 : j + 1 < (blk :: rest).length := by
        simp only [List.length_cons]; omega
      have h2 := h (j + 1) hj2
      have hidx : i + (j + 1) = i + 1 + j := by omega
      rw [hidx] at h2
      have hget : (blk :: rest).get ⟨j + 1, hj2⟩ = rest.get ⟨j, hj⟩ := rfl
      rw [hget] at h2
      exact h2
    rw [captureAux_cons_eq reads elapsed i rest.length total sink blk r1 hr hne hr1,
      ih (i + 1) (total + blk.length) (sink ++ blk) hshift]
    simp only [List.map_cons, List.sum_cons, List.flatten_cons]
    rw [Nat.add_assoc, List.append_assoc]

end ChaosKeyFulltest

namespace ChaosKeyFulltest

open ChaosKey

/-- Claim C7: capture with `block_count = 3` and 1 MiB blocks where the
transport yields 1 MiB, 1 MiB, then 0 bytes: exactly 2 MiB (the two full
blocks, in order) is written to the sink, "no data received" is reported at
block 3, the loop terminates after completing only block 1 and block 2, and
the returned total is 2097152. -/
theorem capture_three_block_scenario :
    capture_data
      (fun i => if i < 2 then .ok (List.replicate 1048576 0) else .ok [])
      (fun _ => 1) 3 =
      .ok ⟨2097152, List.replicate 2097152 0, [.noData 3], 2⟩ := by
  have hne : (List.replicate 1048576 (0 : Nat)) ≠ [] := by
    simp only [ne_eq, List.replicate_eq_nil_iff]
    decide
  have hr0 : (fun i => if i < 2 then ReadResult.ok (List.replicate 1048576 (0 : Nat))
      else ReadResult.ok []) 0 = ReadResult.ok (List.replicate 1048576 0) := rfl
  have hr1 : (fun i => if i < 2 then ReadResult.ok (List.replicate 1048576 (0 : Nat))
      else ReadResult.ok []) 1 = ReadResult.ok (List.replicate 1048576 0) := rfl
  have hr2 : (fun i => if i < 2 then ReadResult.ok (List.replicate 1048576 (0 : Nat))
      else ReadResult.ok []) 2 = ReadResult.ok [] := rfl
  obtain ⟨q0, hq0⟩ := computeRate_ok (List.replicate 1048576 (0 : Nat)).length
    ((fun _ => (1 : ℚ)) 0)
  obtain ⟨q1, hq1⟩ := computeRate_ok (List.replicate 1048576 (0 : Nat)).length
    ((fun _ => (1 : ℚ)) 1)
  rw [capture_data]
  conv_lhs => rw [show (3 : Nat) = ((0 + 1) + 1) + 1 from rfl]
  rw [captureAux_cons_eq _ _ 0 ((0 + 1) + 1) 0 [] (List.replicate 1048576 0)
      q0 hr0 hne hq0,
    captureAux_cons_eq
      (fun i => if i < 2 then ReadResult.ok (List.replicate 1048576 0)
        else ReadResult.ok []) (fun _ => (1 : ℚ)) (0 + 1) (0 + 1) _ _
      (List.replicate 1048576 0) q1 hr1 hne hq1,
    captureAux_noData_eq
      (fun i => if i < 2 then ReadResult.ok (List.replicate 1048576 0)
        else ReadResult.ok []) (fun _ => (1 : ℚ)) (0 + 1 + 1) 0 _ _ hr2]
  rw [List.length_replicate,
    show (2097152 : Nat) = 1048576 + 1048576 from rfl, List.replicate_add]
  rfl

/-- Claim C8, counterexample: with `block_count = 1` and `block_size = 0` the
single read call returns a full block of `block_size` bytes (the empty
sequence) with no error, yet the capture loop does not complete the block:
it reports no data at block 1 and finishes with `completed = 0` instead of
completing all blocks with no message. -/
theorem capture_zero_block_size_counterexample :
    capture_data (fun _ => .ok []) (fun _ => 1) 1 =
      .ok ⟨0, [], [.noData 1], 0⟩ ∧
    capture_data (fun _ => .ok []) (fun _ => 1) 1 ≠
      .ok ⟨1 * 0, [], [], 1⟩ := by
  have h : capture_data (fun _ => .ok []) (fun _ => 1) 1 =
      .ok ⟨0, [], [.noData 1], 0⟩ := by
    rw [capture_data, show (1 : Nat) = 0 + 1 from rfl,
      captureAux_noData_eq _ _ 0 0 0 [] rfl]
  refine ⟨h, ?_⟩
  rw [h]
  simp

/-- Claim C8, amended: for every block count and every sequence of *non-empty*
error-free block reads (so for every positive block size), the capture loop
completes all blocks, appends each returned block to the sink in order,
adds each block's actual returned length to the total (so any non-zero
short read contributes exactly its actual length), and when every block has
full length `block_size` the returned total is `block_count * block_size`. -/
theorem capture_full_blocks (reads : Nat → ReadResult) (elapsed : Nat → ℚ)
    (blocks : List (List Nat))
    (hread : ∀ (j : Nat) (hj : j < blocks.length),
      reads j = .ok (blocks.get ⟨j, hj⟩) ∧ blocks.get ⟨j, hj⟩ ≠ []) :
    capture_data reads elapsed blocks.length =
      .ok ⟨(blocks.map List.length).sum, blocks.flatten, [], blocks.length⟩ ∧
    ∀ block_size : Nat,
      (∀ (j : Nat) (hj : j < blocks.length),
        (blocks.get ⟨j, hj⟩).length = block_size) →
      capture_data reads elapsed blocks.length =
        .ok ⟨blocks.length * block_size, blocks.flatten, [], blocks.length⟩ := by
  have hmain : capture_data reads elapsed blocks.length =
      .ok ⟨(blocks.map List.length).sum, blocks.flatten, [], blocks.length⟩ := by
    have hshift : ∀ (j : Nat) (hj : j < blocks.length),
        reads (0 + j) = .ok (blocks.get ⟨j, hj⟩) ∧ blocks.get ⟨j, hj⟩ ≠ [] := by
      intro j hj
      rw [Nat.zero_add]
      exact hread j hj
    have h := captureAux_all_ok reads elapsed blocks 0 0 [] hshift
    rw [capture_data, h]
    simp
  refine ⟨hmain, ?_⟩
  intro block_size hfull
  have hmap : blocks.map List.length = List.replicate blocks.length block_size := by
    rw [List.eq_replicate_iff]
    refine ⟨by simp, ?_⟩
    intro b hb
    obtain ⟨blk, hblk, rfl⟩ := List.mem_map.mp hb
    obtain ⟨⟨j, hj⟩, rfl⟩ := List.mem_iff_get.mp hblk
    exact hfull j hj
  rw [hmain, hmap, List.sum_replicate, smul_eq_mul]

/-- Witness for C8 (amended) with two full blocks of size 2. -/
theorem capture_full_blocks_witness :
    capture_data (fun j => if j = 0 then .ok [1, 2] else .ok [3, 4])
      (fun _ => 1) 2 = .ok ⟨2 * 2, [1, 2, 3, 4], [], 2⟩ := by
  have hread : ∀ (j : Nat) (hj : j < ([[1, 2], [3, 4]] : List (List Nat)).length),
      (fun j => if j = 0 then ReadResult.ok [1, 2] else .ok [3, 4]) j =
        .ok (([[1, 2], [3, 4]] : List (List Nat)).get ⟨j, hj⟩) ∧
      ([[1, 2], [3, 4]] : List (List Nat)).get ⟨j, hj⟩ ≠ [] := by
    intro j hj
    have hj2 : j < 2 := by simpa using hj
    interval_cases j
    · exact ⟨rfl, by simp⟩
    · exact ⟨rfl, by simp⟩
  have hfull : ∀ (j : Nat) (hj : j < ([[1, 2], [3, 4]] : List (List Nat)).length),
      (([[1, 2], [3, 4]] : List (List Nat)).get ⟨j, hj⟩).length = 2 := by
    intro j hj
    have hj2 : j < 2 := by simpa using hj
    interval_cases j
    · rfl
    · rfl
  exact (capture_full_blocks (fun j => if j = 0 then .ok [1, 2] else .ok [3, 4])
    (fun _ => 1) [[1, 2], [3, 4]] hread).2 2 hfull

/-- Claim C9: the instantaneous-rate computation never faults: for every
length and every elapsed value it returns a result, non-positive elapsed
time yields rate 0 with no division performed, and consequently the capture
loop never propagates a division fault for any read-outcome and
elapsed-time sequences. -/
theorem rate_never_faults (len : Nat) (elapsed : ℚ) :
    (∃ r, computeRate len elapsed = .ok r) ∧
    (elapsed ≤ 0 → computeRate len elapsed = .ok 0) ∧
    (∀ (reads : Nat → ReadResult) (els : Nat → ℚ) (fuel i total : Nat)
      (sink : List Nat), ∃ r, captureAux reads els i fuel total sink = .ok r) := by
  refine ⟨computeRate_ok len elapsed, ?_, ?_⟩
  · intro hle
    unfold computeRate
    rw [if_neg (not_lt.mpr hle)]
  · intro reads els fuel i total sink
    exact captureAux_isOk reads els fuel i total sink

/-- Witness for C9 at zero and negative elapsed times. -/
theorem rate_never_faults_witness :
    computeRate 1048576 0 = .ok 0 ∧ computeRate 1048576 (-1) = .ok 0 :=
  ⟨(rate_never_faults 1048576 0).2.1 le_rfl,
   (rate_never_faults 1048576 (-1)).2.1 (by norm_num)⟩

end ChaosKeyFulltest
